import Mathlib

/-!
Verification of the document-intake processing pipeline.

This file gives a shallow embedding of the pipeline's three core modules and
proves the specification claims about them:

* the confidence/validation engine (`validateInvoiceData` and its helpers,
  embedded from the OCR service module);
* the per-supplier template learner and anomaly matcher
  (`InvoiceTemplateService.learnFromInvoice`, `updateCommonValues`,
  `validateAgainstTemplate`);
* the in-memory invoice job queue (`InvoiceQueue.addJob`,
  `InvoiceQueue.cancelJob`), embedded as explicit state transformers over a
  queue-state record.

Numbers are embedded as exact rationals (`ℚ`) and integers; money amounts and
scores stay small so exact arithmetic matches the source's floating point on
all inputs considered here.  Free-text messages pushed by the source into
`errors` / `warnings` / `suggestions` arrays are embedded as inductive message
types carrying the same payload data the source interpolates into the strings.
Ambient state the source reads (the current date, the `COMPANY_STATE_CODE`
environment variable) is made an explicit `JsEnv` argument; fixed JS runtime
primitives (the `Date` string parser, the RegExp engine) are a `JsRuntime`
argument, constant across evaluations.
-/

/-! ## JS ambient state and runtime primitives -/

/-- Fixed JS runtime primitives used by the source: `new Date(string)` parsing
(`parseDate`, `none` when the result is `NaN`) and `new RegExp(p).test(s)`
(`regexTest p s`).  These are deterministic engine behaviour, not ambient
configuration. -/
structure JsRuntime where
  parseDate : String → Option ℤ
  regexTest : String → String → Bool

/-- Ambient state read by the validation engine: the current time (`today`),
the derived one-year-ago bound, and the `COMPANY_STATE_CODE` environment
variable (`none` when unset). -/
structure JsEnv where
  today : ℤ
  oneYearAgo : ℤ
  companyStateCode : Option String
deriving DecidableEq

/-- JS string truthiness on an optional string: `none` and the empty string
are falsy. -/
def truthyStr : Option String → Option String
  | some s => if s = "" then none else some s
  | none => none

/-- `x || 0` on an optional numeric field. -/
def qOpt : Option ℚ → ℚ
  | some q => q
  | none => 0

/-- JS `Math.round` (round half toward positive infinity). -/
def jsRound (q : ℚ) : ℤ := ⌊q + 1/2⌋

/-! ## Data model: extraction output -/

/-- One line item of the extracted invoice data. -/
structure LineItem where
  name : String
  hsnCode : Option String
  quantity : ℚ
  unitPrice : ℚ
  gstRate : ℚ
  amount : ℚ
deriving DecidableEq

/-- `ExtractedInvoiceData`: the CandidateRecord produced by the extraction
adapter. -/
structure ExtractedInvoiceData where
  invoiceNumber : String
  invoiceDate : String
  supplierName : String
  supplierGSTIN : Option String
  supplierAddress : Option String
  subtotal : ℚ
  cgst : Option ℚ
  sgst : Option ℚ
  igst : Option ℚ
  totalAmount : ℚ
  items : List LineItem
  confidence : ℚ
  rawText : Option String
deriving DecidableEq

/-! ## GSTIN structural validation (from the command-parser utils module) -/

/-- Structured stand-ins for the error strings of `validateGSTINFormat`. -/
inductive GstinError
  | required
  | badLength
  | badFormat
  | badStateCode (code : String)
  | badPAN
deriving DecidableEq

structure GSTINDetails where
  stateCode : String
  stateName : String
  pan : String
  entityNumber : String
  checksum : String
deriving DecidableEq

inductive GSTINCheck
  | invalid (e : GstinError)
  | valid (d : GSTINDetails)
deriving DecidableEq

/-- The `STATE_CODES` table. -/
def stateName : String → Option String
  | "01" => some "Jammu and Kashmir"
  | "02" => some "Himachal Pradesh"
  | "03" => some "Punjab"
  | "04" => some "Chandigarh"
  | "05" => some "Uttarakhand"
  | "06" => some "Haryana"
  | "07" => some "Delhi"
  | "08" => some "Rajasthan"
  | "09" => some "Uttar Pradesh"
  | "10" => some "Bihar"
  | "11" => some "Sikkim"
  | "12" => some "Arunachal Pradesh"
  | "13" => some "Nagaland"
  | "14" => some "Manipur"
  | "15" => some "Mizoram"
  | "16" => some "Tripura"
  | "17" => some "Meghalaya"
  | "18" => some "Assam"
  | "19" => some "West Bengal"
  | "20" => some "Jharkhand"
  | "21" => some "Odisha"
  | "22" => some "Chhattisgarh"
  | "23" => some "Madhya Pradesh"
  | "24" => some "Gujarat"
  | "25" => some "Daman and Diu"
  | "26" => some "Dadra and Nagar Haveli"
  | "27" => some "Maharashtra"
  | "28" => some "Andhra Pradesh (Old)"
  | "29" => some "Karnataka"
  | "30" => some "Goa"
  | "31" => some "Lakshadweep"
  | "32" => some "Kerala"
  | "33" => some "Tamil Nadu"
  | "34" => some "Puducherry"
  | "35" => some "Andaman and Nicobar Islands"
  | "36" => some "Telangana"
  | "37" => some "Andhra Pradesh"
  | "38" => some "Ladakh"
  | _ => none

/-- The regex class `\s` on the ASCII whitespace the inputs here use. -/
def isJsSpace (c : Char) : Bool :=
  c == ' ' || c == '\t' || c == '\n' || c == '\r' || c == '\x0b' || c == '\x0c'

/-- `gstin.replace(/\s/g, '').toUpperCase()` as a character list. -/
def cleanGSTIN (s : String) : List Char :=
  (s.data.filter (fun c => !isJsSpace c)).map Char.toUpper

/-- The 15-character GSTIN shape
`^[0-9]{2}[A-Z]{5}[0-9]{4}[A-Z]{1}[1-9A-Z]{1}Z[0-9A-Z]{1}$`. -/
def gstinShape : List Char → Bool
  | [d1, d2, a1, a2, a3, a4, a5, n1, n2, n3, n4, b1, e1, z1, c1] =>
    d1.isDigit && d2.isDigit &&
    a1.isUpper && a2.isUpper && a3.isUpper && a4.isUpper && a5.isUpper &&
    n1.isDigit && n2.isDigit && n3.isDigit && n4.isDigit &&
    b1.isUpper &&
    ((decide ('1' ≤ e1) && decide (e1 ≤ '9')) || e1.isUpper) &&
    z1 == 'Z' &&
    (c1.isDigit || c1.isUpper)
  | _ => false

/-- The embedded PAN shape `^[A-Z]{5}[0-9]{4}[A-Z]{1}$`. -/
def panShape : List Char → Bool
  | [a1, a2, a3, a4, a5, n1, n2, n3, n4, b1] =>
    a1.isUpper && a2.isUpper && a3.isUpper && a4.isUpper && a5.isUpper &&
    n1.isDigit && n2.isDigit && n3.isDigit && n4.isDigit && b1.isUpper
  | _ => false

/-- `validateGSTINFormat` from the utils module. -/
def validateGSTINFormat (gstin : String) : GSTINCheck :=
  if gstin = "" then .invalid .required
  else
    let clean := cleanGSTIN gstin
    if clean.length ≠ 15 then .invalid .badLength
    else if !gstinShape clean then .invalid .badFormat
    else
      let stateCode := String.mk (clean.take 2)
      let pan := String.mk ((clean.drop 2).take 10)
      let entityNumber := String.mk ((clean.drop 12).take 1)
      let checksum := String.mk ((clean.drop 14).take 1)
      match stateName stateCode with
      | none => .invalid (.badStateCode stateCode)
      | some sn =>
        if !panShape ((clean.drop 2).take 10) then .invalid .badPAN
        else .valid { stateCode := stateCode, stateName := sn, pan := pan,
                      entityNumber := entityNumber, checksum := checksum }

/-! ## Validation result model -/

/-- Structured stand-ins for the hard-error strings of `validateInvoiceData`.
Item constructors carry the 1-based item number interpolated in the source
message. -/
inductive VError
  | invoiceNumberMissing
  | invoiceDateMissing
  | invalidDateFormat
  | supplierNameMissing
  | invalidTotalAmount
  | subtotalMismatch (diff : ℚ)
  | noLineItems
  | itemNameMissing (n : ℕ)
  | itemInvalidQuantity (n : ℕ)
  | itemInvalidUnitPrice (n : ℕ)
deriving DecidableEq

/-- Structured stand-ins for the warning strings of `validateInvoiceData`. -/
inductive VWarning
  | unusualInvoiceNumber
  | futureDate
  | oldInvoice
  | shortSupplierName
  | subtotalMismatch (calculated found : ℚ)
  | totalMismatch (calculated found : ℚ)
  | itemHSNMissing (n : ℕ)
  | itemAmountMismatch (n : ℕ)
  | noGST
  | bothGSTTypes
  | intraStateShouldUseCGSTSGST
  | interStateShouldUseIGST
  | invalidGSTIN (e : GstinError)
  | gstinNotFound
deriving DecidableEq

/-- Structured stand-ins for the suggestion strings of `validateInvoiceData`. -/
inductive VSuggestion
  | checkGSTVisibility
  | gstTypeConvention
  | verifyGSTINManually
  | contactSupplierForGSTIN
  | meetsAutoApproval
  | manualReviewRecommended
deriving DecidableEq

structure FieldConfidence where
  invoiceNumber : ℤ
  amounts : ℤ
  items : ℤ
  gstin : ℤ
deriving DecidableEq

structure ValidationResult where
  valid : Bool
  errors : List VError
  warnings : List VWarning
  suggestions : List VSuggestion
  canAutoApprove : Bool
  confidenceScore : ℤ
  fieldConfidence : FieldConfidence
deriving DecidableEq

/-! ## The validation engine, block by block in source order -/

/-- The invoice-number shape `/^[A-Z0-9\-\/]{3,30}$/i`. -/
def invNumShape (s : String) : Bool :=
  decide (3 ≤ s.length) && decide (s.length ≤ 30) &&
    s.data.all (fun c => c.isAlpha || c.isDigit || c == '-' || c == '/')

def fcInvoiceNumber (d : ExtractedInvoiceData) : ℤ :=
  if d.invoiceNumber = "" then 0
  else if invNumShape d.invoiceNumber then 95 else 60

def invoiceNumberErrors (d : ExtractedInvoiceData) : List VError :=
  if d.invoiceNumber = "" then [.invoiceNumberMissing] else []

def invoiceNumberWarnings (d : ExtractedInvoiceData) : List VWarning :=
  if d.invoiceNumber = "" then []
  else if invNumShape d.invoiceNumber then [] else [.unusualInvoiceNumber]

def dateErrors (rt : JsRuntime) (d : ExtractedInvoiceData) : List VError :=
  if d.invoiceDate = "" then [.invoiceDateMissing]
  else
    match rt.parseDate d.invoiceDate with
    | none => [.invalidDateFormat]
    | some _ => []

def dateWarnings (rt : JsRuntime) (env : JsEnv) (d : ExtractedInvoiceData) :
    List VWarning :=
  if d.invoiceDate = "" then []
  else
    match rt.parseDate d.invoiceDate with
    | none => []
    | some t =>
      if env.today < t then [.futureDate]
      else if t < env.oneYearAgo then [.oldInvoice]
      else []

def supplierErrors (d : ExtractedInvoiceData) : List VError :=
  if d.supplierName = "" then [.supplierNameMissing] else []

def supplierWarnings (d : ExtractedInvoiceData) : List VWarning :=
  if d.supplierName = "" then []
  else if d.supplierName.length < 3 then [.shortSupplierName] else []

/-- `data.items.reduce((sum, item) => sum + (item.amount || 0), 0)`. -/
def calculatedSubtotal (d : ExtractedInvoiceData) : ℚ :=
  (d.items.map (fun it => it.amount)).sum

def gstTotal (d : ExtractedInvoiceData) : ℚ :=
  qOpt d.cgst + qOpt d.sgst + qOpt d.igst

def calculatedTotal (d : ExtractedInvoiceData) : ℚ :=
  calculatedSubtotal d + gstTotal d

def subtotalDiffOf (d : ExtractedInvoiceData) : ℚ :=
  |calculatedSubtotal d - d.subtotal|

def totalDiffOf (d : ExtractedInvoiceData) : ℚ :=
  |calculatedTotal d - d.totalAmount|

/-- The score the subtotal comparison assigns before the grand-total bump. -/
def subtotalScore (d : ExtractedInvoiceData) : ℤ :=
  if subtotalDiffOf d ≤ 1 then 95
  else if subtotalDiffOf d ≤ 10 then 75
  else 40

/-- Amounts field score: `!totalAmount || totalAmount <= 0` gives 0; otherwise
the subtotal comparison, then `Math.max(score, 90)` when the grand-total
difference is at most 1. -/
def fcAmounts (d : ExtractedInvoiceData) : ℤ :=
  if d.totalAmount ≤ 0 then 0
  else if totalDiffOf d ≤ 1 then max (subtotalScore d) 90
  else subtotalScore d

def amountsErrors (d : ExtractedInvoiceData) : List VError :=
  if d.totalAmount ≤ 0 then [.invalidTotalAmount]
  else if subtotalDiffOf d ≤ 1 then []
  else if subtotalDiffOf d ≤ 10 then []
  else [.subtotalMismatch (subtotalDiffOf d)]

def amountsWarnings (d : ExtractedInvoiceData) : List VWarning :=
  if d.totalAmount ≤ 0 then []
  else
    (if subtotalDiffOf d ≤ 1 then []
     else if subtotalDiffOf d ≤ 10 then
       [.subtotalMismatch (calculatedSubtotal d) d.subtotal]
     else []) ++
    (if totalDiffOf d ≤ 1 then []
     else if 10 < totalDiffOf d then
       [.totalMismatch (calculatedTotal d) d.totalAmount]
     else [])

/-- Total per-item penalty: missing name −20, invalid quantity −15, invalid
unit price −15, missing HSN −5, line-amount mismatch over 1 unit −10. -/
def itemIssueDeduction (it : LineItem) : ℤ :=
  (if it.name = "" then 20 else 0) +
  (if it.quantity ≤ 0 then 15 else 0) +
  (if it.unitPrice ≤ 0 then 15 else 0) +
  (if truthyStr it.hsnCode = none then 5 else 0) +
  (if 1 < |it.quantity * it.unitPrice - it.amount| then 10 else 0)

def itemsScoreRaw (d : ExtractedInvoiceData) : ℤ :=
  d.items.foldl (fun s it => s - itemIssueDeduction it) 100

def fcItems (d : ExtractedInvoiceData) : ℤ :=
  if d.items = [] then 0 else max 0 (itemsScoreRaw d)

def itemErrorsAt (n : ℕ) (it : LineItem) : List VError :=
  (if it.name = "" then [.itemNameMissing n] else []) ++
  (if it.quantity ≤ 0 then [.itemInvalidQuantity n] else []) ++
  (if it.unitPrice ≤ 0 then [.itemInvalidUnitPrice n] else [])

def itemWarningsAt (n : ℕ) (it : LineItem) : List VWarning :=
  (if truthyStr it.hsnCode = none then [.itemHSNMissing n] else []) ++
  (if 1 < |it.quantity * it.unitPrice - it.amount| then [.itemAmountMismatch n]
   else [])

def itemsErrors (d : ExtractedInvoiceData) : List VError :=
  if d.items = [] then [.noLineItems]
  else d.items.enum.flatMap (fun p => itemErrorsAt (p.1 + 1) p.2)

def itemsWarnings (d : ExtractedInvoiceData) : List VWarning :=
  if d.items = [] then []
  else d.items.enum.flatMap (fun p => itemWarningsAt (p.1 + 1) p.2)

def hasCGSTSGST (d : ExtractedInvoiceData) : Prop :=
  0 < qOpt d.cgst ∨ 0 < qOpt d.sgst

def hasIGST (d : ExtractedInvoiceData) : Prop :=
  0 < qOpt d.igst

instance (d : ExtractedInvoiceData) : Decidable (hasCGSTSGST d) :=
  inferInstanceAs (Decidable (_ ∨ _))

instance (d : ExtractedInvoiceData) : Decidable (hasIGST d) :=
  inferInstanceAs (Decidable (_ < _))

def gstPresenceWarnings (d : ExtractedInvoiceData) : List VWarning :=
  if 0 < gstTotal d then [] else [.noGST]

def bothTypesWarnings (d : ExtractedInvoiceData) : List VWarning :=
  if hasCGSTSGST d ∧ hasIGST d then [.bothGSTTypes] else []

def gstSuggestions (d : ExtractedInvoiceData) : List VSuggestion :=
  (if 0 < gstTotal d then [] else [.checkGSTVisibility]) ++
  (if hasCGSTSGST d ∧ hasIGST d then [.gstTypeConvention] else [])

/-- `process.env.COMPANY_STATE_CODE || '29'`. -/
def companyStateCodeOf (env : JsEnv) : String :=
  match env.companyStateCode with
  | none => "29"
  | some s => if s = "" then "29" else s

def fcGstin (d : ExtractedInvoiceData) : ℤ :=
  match truthyStr d.supplierGSTIN with
  | none => 0
  | some g =>
    match validateGSTINFormat g with
    | .valid _ => 95
    | .invalid _ => 30

def gstinWarnings (env : JsEnv) (d : ExtractedInvoiceData) : List VWarning :=
  match truthyStr d.supplierGSTIN with
  | none => [.gstinNotFound]
  | some g =>
    match validateGSTINFormat g with
    | .valid det =>
      if companyStateCodeOf env = det.stateCode ∧ hasIGST d ∧ ¬hasCGSTSGST d then
        [.intraStateShouldUseCGSTSGST]
      else if ¬(companyStateCodeOf env = det.stateCode) ∧ hasCGSTSGST d ∧
          ¬hasIGST d then
        [.interStateShouldUseIGST]
      else []
    | .invalid e => [.invalidGSTIN e]

def gstinSuggestions (d : ExtractedInvoiceData) : List VSuggestion :=
  match truthyStr d.supplierGSTIN with
  | none => [.contactSupplierForGSTIN]
  | some g =>
    match validateGSTINFormat g with
    | .valid _ => []
    | .invalid _ => [.verifyGSTINManually]

/-- Aggregate confidence: `Math.round(inv*0.2 + amounts*0.35 + items*0.3 +
gstin*0.15)`. -/
def overallConfidence (d : ExtractedInvoiceData) : ℤ :=
  jsRound ((fcInvoiceNumber d : ℚ) * 0.2 + (fcAmounts d : ℚ) * 0.35 +
    (fcItems d : ℚ) * 0.3 + (fcGstin d : ℚ) * 0.15)

def allErrors (rt : JsRuntime) (d : ExtractedInvoiceData) : List VError :=
  invoiceNumberErrors d ++ dateErrors rt d ++ supplierErrors d ++
    amountsErrors d ++ itemsErrors d

def allWarnings (rt : JsRuntime) (env : JsEnv) (d : ExtractedInvoiceData) :
    List VWarning :=
  invoiceNumberWarnings d ++ dateWarnings rt env d ++ supplierWarnings d ++
    amountsWarnings d ++ itemsWarnings d ++ gstPresenceWarnings d ++
    bothTypesWarnings d ++ gstinWarnings env d

/-- The five-way auto-approval gate. -/
def canAutoApproveOf (rt : JsRuntime) (d : ExtractedInvoiceData) : Bool :=
  ((allErrors rt d).length == 0) && decide (85 ≤ overallConfidence d) &&
    decide ((85 : ℚ) ≤ d.confidence) && decide (90 ≤ fcAmounts d) &&
    decide (80 ≤ fcItems d)

def allSuggestions (rt : JsRuntime) (d : ExtractedInvoiceData) :
    List VSuggestion :=
  gstSuggestions d ++ gstinSuggestions d ++
    (if canAutoApproveOf rt d then [.meetsAutoApproval]
     else if (allErrors rt d).length == 0 then [.manualReviewRecommended]
     else [])

def fieldConfidenceOf (d : ExtractedInvoiceData) : FieldConfidence :=
  { invoiceNumber := fcInvoiceNumber d, amounts := fcAmounts d,
    items := fcItems d, gstin := fcGstin d }

/-- `validateInvoiceData` from the OCR service module. -/
def validateInvoiceData (rt : JsRuntime) (env : JsEnv)
    (d : ExtractedInvoiceData) : ValidationResult :=
  { valid := (allErrors rt d).length == 0
    errors := allErrors rt d
    warnings := allWarnings rt env d
    suggestions := allSuggestions rt d
    canAutoApprove := canAutoApproveOf rt d
    confidenceScore := overallConfidence d
    fieldConfidence := fieldConfidenceOf d }

/-! ## Template store: data model -/

inductive GSTType
  | cgstSgst
  | igst
  | both
deriving DecidableEq

structure TemplatePatterns where
  invoiceNumberFormat : Option String
  dateFormats : List String
  commonHSNCodes : List String
  commonItemNames : List String
  avgItemCount : ℚ
  avgTotalAmount : ℚ
  gstType : GSTType
deriving DecidableEq

structure TemplateStatistics where
  totalInvoicesProcessed : ℕ
  lastUpdated : ℤ
  accuracyRate : ℚ
deriving DecidableEq

structure InvoiceTemplate where
  supplierId : String
  supplierName : String
  patterns : TemplatePatterns
  statistics : TemplateStatistics
deriving DecidableEq

/-! ## Template store: helpers -/

theorem length_dropWhile_le {α : Type} (p : α → Bool) (l : List α) :
    (l.dropWhile p).length ≤ l.length := by
  induction l with
  | nil => simp [List.dropWhile]
  | cons a l ih =>
    by_cases h : p a = true
    · rw [List.dropWhile_cons_of_pos h]
      exact Nat.le_succ_of_le ih
    · rw [List.dropWhile_cons_of_neg h]

/-- First pass of `extractInvoiceNumberPattern`: replace every maximal digit
run of length `k` by the characters `\d{k}`. -/
def digitRunsToPattern : List Char → List Char
  | [] => []
  | c :: rest =>
    if c.isDigit then
      ('\\' :: 'd' :: '\x7b' :: Nat.toDigits 10 ((rest.takeWhile Char.isDigit).length + 1))
        ++ '\x7d' :: digitRunsToPattern (rest.dropWhile Char.isDigit)
    else c :: digitRunsToPattern rest
termination_by l => l.length
decreasing_by
  · simpa using Nat.lt_succ_of_le (length_dropWhile_le Char.isDigit rest)
  · simp

/-- Second pass: escape the regex metacharacters `[.*+?^${}()|[\]\\]`. -/
def isRegexSpecial (c : Char) : Bool :=
  c == '.' || c == '*' || c == '+' || c == '?' || c == '^' || c == '$' ||
    c == '\x7b' || c == '\x7d' || c == '(' || c == ')' || c == '|' ||
    c == '[' || c == ']' || c == '\\'

def escapeRegexSpecials (l : List Char) : List Char :=
  l.flatMap (fun c => if isRegexSpecial c then ['\\', c] else [c])

def extractInvoiceNumberPattern (s : String) : String :=
  String.mk (escapeRegexSpecials (digitRunsToPattern s.data))

/-- `detectGSTType` from the template service. -/
def detectGSTType (d : ExtractedInvoiceData) : GSTType :=
  if hasCGSTSGST d ∧ hasIGST d then .both
  else if hasCGSTSGST d then .cgstSgst
  else if hasIGST d then .igst
  else .cgstSgst

/-- `frequency[val] = (frequency[val] || 0) + 1` on an insertion-ordered
association list standing for the JS object. -/
def bumpFreq : List (String × ℕ) → String → List (String × ℕ)
  | [], v => [(v, 1)]
  | (k, c) :: rest, v =>
    if k = v then (k, c + 1) :: rest else (k, c) :: bumpFreq rest v

/-- The frequency table built by `updateCommonValues`: existing values counted
unconditionally, new values only when truthy. -/
def freqTable (existing newValues : List String) : List (String × ℕ) :=
  (existing ++ newValues.filter (fun v => v ≠ "")).foldl bumpFreq []

/-- One step of the stable sort by descending count (`(a, b) => b - a` on the
counts): an earlier entry goes before any later entry that does not beat it
strictly. -/
def insertCountDesc (p : String × ℕ) : List (String × ℕ) → List (String × ℕ)
  | [] => [p]
  | q :: rest => if p.2 < q.2 then q :: insertCountDesc p rest else p :: q :: rest

def sortCountDesc (l : List (String × ℕ)) : List (String × ℕ) :=
  l.foldr insertCountDesc []

/-- `updateCommonValues`: merge observed values into the frequency table, sort
by descending frequency and keep the first `maxSize` values. -/
def updateCommonValues (existing newValues : List String)
    (maxSize : ℕ := 20) : List String :=
  ((sortCountDesc (freqTable existing newValues)).take maxSize).map Prod.fst

/-- The pure core of `learnFromInvoice`: the template read from the store is
its second argument, the written template its result; `now` is the wall clock
read for `lastUpdated`. -/
def learnFromInvoice (template? : Option InvoiceTemplate)
    (d : ExtractedInvoiceData) (supplierId : String) (wasAccurate : Bool)
    (now : ℤ) : InvoiceTemplate :=
  match template? with
  | none =>
    { supplierId := supplierId
      supplierName := d.supplierName
      patterns :=
        { invoiceNumberFormat := some (extractInvoiceNumberPattern d.invoiceNumber)
          dateFormats := []
          commonHSNCodes := []
          commonItemNames := []
          avgItemCount := (d.items.length : ℚ)
          avgTotalAmount := d.totalAmount
          gstType := detectGSTType d }
      statistics :=
        { totalInvoicesProcessed := 1
          lastUpdated := now
          accuracyRate := if wasAccurate then 100 else 0 } }
  | some t =>
    let count := t.statistics.totalInvoicesProcessed
    { t with
      patterns :=
        { t.patterns with
          commonHSNCodes := updateCommonValues t.patterns.commonHSNCodes
            (d.items.filterMap (fun it => truthyStr it.hsnCode))
          commonItemNames := updateCommonValues t.patterns.commonItemNames
            (d.items.map (fun it => it.name))
          avgItemCount :=
            (t.patterns.avgItemCount * (count : ℚ) + (d.items.length : ℚ)) /
              ((count : ℚ) + 1)
          avgTotalAmount :=
            (t.patterns.avgTotalAmount * (count : ℚ) + d.totalAmount) /
              ((count : ℚ) + 1) }
      statistics :=
        { totalInvoicesProcessed := count + 1
          lastUpdated := now
          accuracyRate :=
            (t.statistics.accuracyRate * (count : ℚ) +
              (if wasAccurate then 100 else 0)) / ((count : ℚ) + 1) } }

/-- Sequential replay of `learnFromInvoice` over a list of records, starting
from a supplier with no stored template. -/
def replayLearn (supplierId : String) (wasAccurate : Bool) (now : ℤ)
    (records : List ExtractedInvoiceData) : Option InvoiceTemplate :=
  records.foldl (fun acc d => some (learnFromInvoice acc d supplierId wasAccurate now)) none

/-! ## Anomaly matcher -/

/-- Structured stand-ins for the anomaly strings of
`validateAgainstTemplate`. -/
inductive TAnomaly
  | invoiceNumberFormatDiffers
  | unusualItemCount (found : ℕ) (avg : ℚ)
  | unusualTotalAmount (found avg : ℚ)
  | gstTypeChanged (expected found : GSTType)
  | noCommonHSN
  | noCommonItemNames
deriving DecidableEq

/-- Structured stand-ins for the suggestion strings of
`validateAgainstTemplate`. -/
inductive TSuggestion
  | firstInvoiceNoTemplate
  | verifyTotalAmount
  | verifyGSTType
  | newProductCategory
  | lowAccuracyReview (roundedRate : ℤ)
  | matchesExpectedPatterns
deriving DecidableEq

/-- The match report.  The source's field `matches` is a reserved word in
Lean, hence the primed name. -/
structure AnomalyReport where
  matches' : Bool
  anomalies : List TAnomaly
  suggestions : List TSuggestion
  confidence : ℤ
deriving DecidableEq

/-- JS `a.includes(b)` on lowercased names: substring containment. -/
def jsIncludes (a b : String) : Bool := decide (b.data <:+: a.data)

def lowerStr (s : String) : String := String.map Char.toLower s

/-- The pure core of `validateAgainstTemplate`: the template read from the
store is its second argument.  Division by a zero average follows the rational
convention `x / 0 = 0` (the source's float `Infinity`/`NaN` cases cannot make
the fired penalty set larger, which is all the claims here use). -/
def validateAgainstTemplate (rt : JsRuntime) (template? : Option InvoiceTemplate)
    (d : ExtractedInvoiceData) : AnomalyReport :=
  match template? with
  | none =>
    { matches' := true, anomalies := [],
      suggestions := [.firstInvoiceNoTemplate], confidence := 50 }
  | some t =>
    let p1 : Bool :=
      match truthyStr t.patterns.invoiceNumberFormat with
      | some p => !rt.regexTest p d.invoiceNumber
      | none => false
    let itemCountDiff : ℚ := |(d.items.length : ℚ) - t.patterns.avgItemCount|
    let p2 : Bool := decide (t.patterns.avgItemCount * 0.5 < itemCountDiff)
    let amountDiff : ℚ := |d.totalAmount - t.patterns.avgTotalAmount|
    let amountPercent : ℚ := amountDiff / t.patterns.avgTotalAmount * 100
    let p3 : Bool := decide (50 < amountPercent)
    let currentGSTType := detectGSTType d
    let p4 : Bool := decide (t.patterns.gstType ≠ .both ∧
      currentGSTType ≠ t.patterns.gstType)
    let invoiceHSNCodes := d.items.filterMap (fun it => truthyStr it.hsnCode)
    let hasCommonHSN : Bool :=
      invoiceHSNCodes.any (fun code => t.patterns.commonHSNCodes.contains code)
    let p5 : Bool := decide (t.patterns.commonHSNCodes ≠ []) && !hasCommonHSN
    let invoiceItemNames := d.items.map (fun it => lowerStr it.name)
    let knownItems := t.patterns.commonItemNames.map lowerStr
    let hasCommonItem : Bool :=
      invoiceItemNames.any (fun nm =>
        knownItems.any (fun known => jsIncludes nm known || jsIncludes known nm))
    let p6 : Bool := decide (knownItems ≠ []) && !hasCommonItem
    let matchScore : ℤ :=
      100 - (if p1 then 10 else 0) - (if p2 then 5 else 0) -
        (if p3 then 15 else 0) - (if p4 then 10 else 0) -
        (if p5 then 10 else 0) - (if p6 then 15 else 0)
    let anomalies : List TAnomaly :=
      (if p1 then [.invoiceNumberFormatDiffers] else []) ++
      (if p2 then [.unusualItemCount d.items.length t.patterns.avgItemCount] else []) ++
      (if p3 then [.unusualTotalAmount d.totalAmount t.patterns.avgTotalAmount] else []) ++
      (if p4 then [.gstTypeChanged t.patterns.gstType currentGSTType] else []) ++
      (if p5 then [.noCommonHSN] else []) ++
      (if p6 then [.noCommonItemNames] else [])
    let suggestions : List TSuggestion :=
      (if p3 then [.verifyTotalAmount] else []) ++
      (if p4 then [.verifyGSTType] else []) ++
      (if p5 then [.newProductCategory] else []) ++
      (if decide (t.statistics.accuracyRate < 70) then
        [.lowAccuracyReview (jsRound t.statistics.accuracyRate)] else []) ++
      (if anomalies.isEmpty then [.matchesExpectedPatterns] else [])
    { matches' := anomalies.isEmpty
      anomalies := anomalies
      suggestions := suggestions
      confidence := max 0 (min 100 matchScore) }

/-! ## Invoice job queue -/

inductive JobStatus
  | pending
  | processing
  | completed
  | failed
deriving DecidableEq

/-- One queued job.  The `result` payload (the extraction/validation bundle)
is never constructed by the operations modelled here, so its type is kept
opaque as `Unit`. -/
structure QueueJob where
  id : String
  filePath : String
  fileName : String
  userId : String
  status : JobStatus
  progress : ℤ
  result : Option Unit
  error : Option String
  createdAt : ℤ
  completedAt : Option ℤ
deriving DecidableEq

/-- The mutable state of the `InvoiceQueue` singleton, plus a log of the files
removed through `deleteFile` (the observable effect of temp-file cleanup). -/
structure QState where
  queue : List QueueJob
  processing : Bool
  activeJobs : ℕ
  deletedFiles : List String
deriving DecidableEq

def maxConcurrent : ℕ := 3

/-- JS `array.slice(0, e)` (a negative end counts from the end of the
array). -/
def jsSliceTo {α : Type} (l : List α) (e : ℤ) : List α :=
  if 0 ≤ e then l.take e.toNat else l.take (l.length - (-e).toNat)

def newJob (jid fp fn uid : String) (now : ℤ) : QueueJob :=
  { id := jid, filePath := fp, fileName := fn, userId := uid,
    status := .pending, progress := 0, result := none, error := none,
    createdAt := now, completedAt := none }

/-- `queue.filter(PENDING).slice(0, maxConcurrent - activeJobs)`: the pending
jobs one loop iteration picks up. -/
def pendingSlice (q : List QueueJob) (active : ℕ) : List QueueJob :=
  jsSliceTo (q.filter (fun j => j.status == .pending))
    ((maxConcurrent : ℤ) - (active : ℤ))

/-- The synchronous head of `processJob` run on a picked job before its first
`await`: status to PROCESSING, progress through 10 to 20. -/
def markPicked (picked : List String) (j : QueueJob) : QueueJob :=
  if picked.contains j.id then { j with status := .processing, progress := 20 }
  else j

/-- The synchronous part of `processQueue()` executed before its first
suspension point (`await`), as run on the caller's stack when `addJob` kicks
the loop off.  One loop iteration is entered; each job the iteration picks has
already run the synchronous head of `processJob` (worker count bumped, status
set to PROCESSING, progress moved through 10 to 20) before the first `await`
hands control back to the caller of `addJob`. -/
def processQueueSyncPart (s : QState) : QState :=
  if s.queue.any (fun j => j.status == .pending) || decide (0 < s.activeJobs) then
    if pendingSlice s.queue s.activeJobs = [] then { s with processing := true }
    else
      { s with
        processing := true
        queue := s.queue.map
          (markPicked ((pendingSlice s.queue s.activeJobs).map (fun j => j.id)))
        activeJobs := s.activeJobs + (pendingSlice s.queue s.activeJobs).length }
  else { s with processing := false }

/-- `addJob`: append a PENDING job, then start `processQueue()` when the loop
is not already running; the state returned is the queue state at the moment
`addJob` returns to its caller. -/
def addJob (s : QState) (jid fp fn uid : String) (now : ℤ) : QState × String :=
  let s1 : QState := { s with queue := s.queue ++ [newJob jid fp fn uid now] }
  if s1.processing then (s1, jid) else (processQueueSyncPart s1, jid)

/-- `cancelJob`.  The source mutates the job object found by reference; the
embedding rewrites the jobs with that id (job ids are unique per state in
practice, see `addJob`'s id generation). -/
def cancelJob (s : QState) (jid : String) (now : ℤ) : QState × Bool :=
  match s.queue.find? (fun j => j.id == jid) with
  | none => (s, false)
  | some job =>
    if job.status = .pending then
      ({ s with
         queue := s.queue.map (fun j =>
           if j.id == jid then
             { j with
               status := .failed
               error := some "Cancelled by user"
               completedAt := some now }
           else j)
         deletedFiles := s.deletedFiles ++ [job.filePath] }, true)
    else (s, false)

/-! ## Shared bound lemmas for the validation engine -/

theorem fcInvoiceNumber_bounds (d : ExtractedInvoiceData) :
    0 ≤ fcInvoiceNumber d ∧ fcInvoiceNumber d ≤ 100 := by
  unfold fcInvoiceNumber; split_ifs <;> norm_num

theorem fcAmounts_bounds (d : ExtractedInvoiceData) :
    0 ≤ fcAmounts d ∧ fcAmounts d ≤ 100 := by
  unfold fcAmounts subtotalScore; split_ifs <;> simp [le_max_iff, max_le_iff]

theorem itemIssueDeduction_nonneg (it : LineItem) : 0 ≤ itemIssueDeduction it := by
  unfold itemIssueDeduction
  have h1 : (0:ℤ) ≤ if it.name = "" then 20 else 0 := by split <;> norm_num
  have h2 : (0:ℤ) ≤ if it.quantity ≤ 0 then 15 else 0 := by split <;> norm_num
  have h3 : (0:ℤ) ≤ if it.unitPrice ≤ 0 then 15 else 0 := by split <;> norm_num
  have h4 : (0:ℤ) ≤ if truthyStr it.hsnCode = none then 5 else 0 := by split <;> norm_num
  have h5 : (0:ℤ) ≤ if 1 < |it.quantity * it.unitPrice - it.amount| then 10 else 0 := by
    split <;> norm_num
  linarith

theorem itemsFoldl_le (l : List LineItem) (s : ℤ) :
    l.foldl (fun a it => a - itemIssueDeduction it) s ≤ s := by
  induction l generalizing s with
  | nil => simp
  | cons it l ih =>
    simp only [List.foldl_cons]
    exact le_trans (ih (s - itemIssueDeduction it))
      (by linarith [itemIssueDeduction_nonneg it])

theorem fcItems_bounds (d : ExtractedInvoiceData) :
    0 ≤ fcItems d ∧ fcItems d ≤ 100 := by
  unfold fcItems
  split_ifs
  · norm_num
  · exact ⟨le_max_left _ _, max_le (by norm_num) (itemsFoldl_le d.items 100)⟩

theorem fcGstin_bounds (d : ExtractedInvoiceData) :
    0 ≤ fcGstin d ∧ fcGstin d ≤ 100 := by
  unfold fcGstin
  rcases truthyStr d.supplierGSTIN with _ | g
  · norm_num
  · rcases h : validateGSTINFormat g with e | det <;> simp [h]

theorem jsRound_bounds {q : ℚ} (h0 : 0 ≤ q) (h1 : q ≤ 100) :
    0 ≤ jsRound q ∧ jsRound q ≤ 100 := by
  unfold jsRound
  exact ⟨Int.le_floor.mpr (by push_cast; linarith),
    Int.floor_le_iff.mpr (by push_cast; linarith)⟩

theorem overallConfidence_bounds (d : ExtractedInvoiceData) :
    0 ≤ overallConfidence d ∧ overallConfidence d ≤ 100 := by
  unfold overallConfidence
  have hb1 : (0:ℚ) ≤ (fcInvoiceNumber d : ℚ) ∧ (fcInvoiceNumber d : ℚ) ≤ 100 := by
    exact_mod_cast fcInvoiceNumber_bounds d
  have hb2 : (0:ℚ) ≤ (fcAmounts d : ℚ) ∧ (fcAmounts d : ℚ) ≤ 100 := by
    exact_mod_cast fcAmounts_bounds d
  have hb3 : (0:ℚ) ≤ (fcItems d : ℚ) ∧ (fcItems d : ℚ) ≤ 100 := by
    exact_mod_cast fcItems_bounds d
  have hb4 : (0:ℚ) ≤ (fcGstin d : ℚ) ∧ (fcGstin d : ℚ) ≤ 100 := by
    exact_mod_cast fcGstin_bounds d
  refine jsRound_bounds ?_ ?_
  · nlinarith [hb1.1, hb2.1, hb3.1, hb4.1]
  · nlinarith [hb1.2, hb2.2, hb3.2, hb4.2]

/-! ## Concrete sample data used by counterexamples and witnesses -/

/-- A JS runtime whose date parser rejects every string and whose regex test
always fails; any fixed runtime works for the concrete evaluations below. -/
def rt0 : JsRuntime := { parseDate := fun _ => none, regexTest := fun _ _ => false }

def env0 : JsEnv := { today := 0, oneYearAgo := 0, companyStateCode := none }

def envA : JsEnv := { today := 0, oneYearAgo := 0, companyStateCode := some "27" }

def envB : JsEnv := { today := 0, oneYearAgo := 0, companyStateCode := some "29" }

/-- A well-formed record: one line item of 100, IGST 18, consistent totals,
valid Maharashtra GSTIN. -/
def recA : ExtractedInvoiceData :=
  { invoiceNumber := "INV-001", invoiceDate := "2024-01-01", supplierName := "ACME",
    supplierGSTIN := some "27ABCDE1234F1Z5", supplierAddress := none,
    subtotal := 100, cgst := none, sgst := none, igst := some 18, totalAmount := 118,
    items := [{ name := "Widget", hsnCode := some "8471", quantity := 1,
                unitPrice := 100, gstRate := 18, amount := 100 }],
    confidence := 85, rawText := none }

/-- A record whose declared subtotal is off by 5 from its line items while the
declared grand total matches the recomputed one exactly. -/
def recB : ExtractedInvoiceData :=
  { invoiceNumber := "INV-002", invoiceDate := "2024-01-02", supplierName := "ACME",
    supplierGSTIN := none, supplierAddress := none,
    subtotal := 100, cgst := none, sgst := none, igst := none, totalAmount := 105,
    items := [{ name := "Widget", hsnCode := some "8471", quantity := 1,
                unitPrice := 105, gstRate := 0, amount := 105 }],
    confidence := 85, rawText := none }

/-- A record with no line items at all. -/
def recC : ExtractedInvoiceData :=
  { invoiceNumber := "INV-003", invoiceDate := "2024-01-03", supplierName := "ACME",
    supplierGSTIN := none, supplierAddress := none,
    subtotal := 0, cgst := none, sgst := none, igst := none, totalAmount := 500,
    items := [], confidence := 85, rawText := none }

theorem validateGSTINFormat_recA : validateGSTINFormat "27ABCDE1234F1Z5" =
    .valid { stateCode := "27", stateName := "Maharashtra", pan := "ABCDE1234F",
             entityNumber := "1", checksum := "5" } := by decide

/-! ## Claims about the validation engine -/

/-- C1: for every CandidateRecord, `validate` returns `canAutoApprove = true`
if and only if `errors` is empty, the aggregate confidence is at least 85, the
record's extraction confidence is at least 85, the amounts field score is at
least 90 and the items field score is at least 80; in particular
`canAutoApprove` implies `errors` is empty. -/
theorem c1_auto_approval_gate (rt : JsRuntime) (env : JsEnv)
    (d : ExtractedInvoiceData) :
    (validateInvoiceData rt env d).canAutoApprove = true ↔
      ((validateInvoiceData rt env d).errors = [] ∧
       85 ≤ (validateInvoiceData rt env d).confidenceScore ∧
       (85 : ℚ) ≤ d.confidence ∧
       90 ≤ (validateInvoiceData rt env d).fieldConfidence.amounts ∧
       80 ≤ (validateInvoiceData rt env d).fieldConfidence.items) := by
  simp [validateInvoiceData, canAutoApproveOf, fieldConfidenceOf,
    Bool.and_eq_true, decide_eq_true_eq, List.length_eq_zero, beq_iff_eq,
    and_assoc]

/-- C2 (amended): for a positive declared total the amounts score is 95 when
the subtotal difference is at most 1; when it is at most 10 the score is 75 —
bumped to 90 when the grand-total difference is also at most 1 — with a
warning naming both subtotal values; otherwise a hard error is recorded and
the score is 40, again bumped to 90 when the grand-total difference is at most
1. -/
theorem c2_amounts_scoring (rt : JsRuntime) (env : JsEnv)
    (d : ExtractedInvoiceData) (h : 0 < d.totalAmount) :
    ((validateInvoiceData rt env d).fieldConfidence.amounts =
      if subtotalDiffOf d ≤ 1 then 95
      else if subtotalDiffOf d ≤ 10 then (if totalDiffOf d ≤ 1 then 90 else 75)
      else (if totalDiffOf d ≤ 1 then 90 else 40)) ∧
    (1 < subtotalDiffOf d → subtotalDiffOf d ≤ 10 →
      VWarning.subtotalMismatch (calculatedSubtotal d) d.subtotal ∈
        (validateInvoiceData rt env d).warnings) ∧
    (10 < subtotalDiffOf d →
      VError.subtotalMismatch (subtotalDiffOf d) ∈
        (validateInvoiceData rt env d).errors) := by
  have hts : ¬ d.totalAmount ≤ 0 := not_le.mpr h
  refine ⟨?_, ?_, ?_⟩
  · show fcAmounts d = _
    unfold fcAmounts subtotalScore
    rw [if_neg hts]
    split_ifs <;> norm_num
  · intro h1 h2
    have hd1 : ¬ subtotalDiffOf d ≤ 1 := not_le.mpr h1
    show _ ∈ allWarnings rt env d
    simp [allWarnings, amountsWarnings, hts, hd1, h2]
  · intro h10
    have hd1 : ¬ subtotalDiffOf d ≤ 1 := by
      intro hc; exact absurd (hc.trans (by norm_num)) (not_le.mpr h10)
    have hd10 : ¬ subtotalDiffOf d ≤ 10 := not_le.mpr h10
    show _ ∈ allErrors rt d
    simp [allErrors, amountsErrors, hts, hd1, hd10]

/-- C2 counterexample: `recB` has a positive total and a subtotal difference
of 5 (in the claimed 75-score band), yet its amounts score is 90, not 75,
because the grand-total difference of 0 triggers the bump. -/
theorem c2_counterexample :
    0 < recB.totalAmount ∧ 1 < subtotalDiffOf recB ∧ subtotalDiffOf recB ≤ 10 ∧
    (validateInvoiceData rt0 env0 recB).fieldConfidence.amounts = 90 ∧
    (validateInvoiceData rt0 env0 recB).fieldConfidence.amounts ≠ 75 := by
  refine ⟨by norm_num [recB], ?_, ?_, ?_, ?_⟩
  · norm_num [subtotalDiffOf, calculatedSubtotal, recB]
  · norm_num [subtotalDiffOf, calculatedSubtotal, recB]
  · show fcAmounts recB = 90
    norm_num [fcAmounts, subtotalScore, subtotalDiffOf, totalDiffOf,
      calculatedSubtotal, calculatedTotal, gstTotal, qOpt, recB]
  · show fcAmounts recB ≠ 75
    norm_num [fcAmounts, subtotalScore, subtotalDiffOf, totalDiffOf,
      calculatedSubtotal, calculatedTotal, gstTotal, qOpt, recB]

/-- C2 witness: the amended scoring rule evaluated at the concrete record
`recA`, whose subtotal difference is 0. -/
theorem c2_witness :
    0 < recA.totalAmount ∧
    ((validateInvoiceData rt0 env0 recA).fieldConfidence.amounts =
      if subtotalDiffOf recA ≤ 1 then 95
      else if subtotalDiffOf recA ≤ 10 then (if totalDiffOf recA ≤ 1 then 90 else 75)
      else (if totalDiffOf recA ≤ 1 then 90 else 40)) ∧
    (1 < subtotalDiffOf recA → subtotalDiffOf recA ≤ 10 →
      VWarning.subtotalMismatch (calculatedSubtotal recA) recA.subtotal ∈
        (validateInvoiceData rt0 env0 recA).warnings) ∧
    (10 < subtotalDiffOf recA →
      VError.subtotalMismatch (subtotalDiffOf recA) ∈
        (validateInvoiceData rt0 env0 recA).errors) :=
  ⟨by norm_num [recA], c2_amounts_scoring rt0 env0 recA (by norm_num [recA])⟩

/-- C3 (amended): given the engine's fixed date parser, the errors,
suggestions, field confidences, aggregate confidence, auto-approval decision
and validity flag of `validate` are independent of the ambient environment
(current date, `COMPANY_STATE_CODE`); only the warnings may differ between two
evaluations. -/
theorem c3_env_independent_components (rt : JsRuntime) (e1 e2 : JsEnv)
    (d : ExtractedInvoiceData) :
    (validateInvoiceData rt e1 d).errors = (validateInvoiceData rt e2 d).errors ∧
    (validateInvoiceData rt e1 d).suggestions =
      (validateInvoiceData rt e2 d).suggestions ∧
    (validateInvoiceData rt e1 d).fieldConfidence =
      (validateInvoiceData rt e2 d).fieldConfidence ∧
    (validateInvoiceData rt e1 d).confidenceScore =
      (validateInvoiceData rt e2 d).confidenceScore ∧
    (validateInvoiceData rt e1 d).canAutoApprove =
      (validateInvoiceData rt e2 d).canAutoApprove ∧
    (validateInvoiceData rt e1 d).valid = (validateInvoiceData rt e2 d).valid :=
  ⟨rfl, rfl, rfl, rfl, rfl, rfl⟩

theorem warnings_recA_envA :
    allWarnings rt0 envA recA = [.intraStateShouldUseCGSTSGST] := by
  norm_num [allWarnings, invoiceNumberWarnings, dateWarnings, supplierWarnings,
    amountsWarnings, itemsWarnings, itemWarningsAt, gstPresenceWarnings,
    bothTypesWarnings, gstinWarnings, recA, rt0, envA, truthyStr,
    validateGSTINFormat_recA, companyStateCodeOf, hasIGST, hasCGSTSGST, qOpt,
    gstTotal, calculatedSubtotal, calculatedTotal, subtotalDiffOf, totalDiffOf]
  simp +decide

theorem warnings_recA_envB : allWarnings rt0 envB recA = [] := by
  norm_num [allWarnings, invoiceNumberWarnings, dateWarnings, supplierWarnings,
    amountsWarnings, itemsWarnings, itemWarningsAt, gstPresenceWarnings,
    bothTypesWarnings, gstinWarnings, recA, rt0, envB, truthyStr,
    validateGSTINFormat_recA, companyStateCodeOf, hasIGST, hasCGSTSGST, qOpt,
    gstTotal, calculatedSubtotal, calculatedTotal, subtotalDiffOf, totalDiffOf]
  simp +decide

/-- C3 counterexample: the same record validated under two values of the
`COMPANY_STATE_CODE` environment variable yields two different
ValidationResults (the intra-state tax-regime warning appears only when the
company's state matches the supplier GSTIN's state), so `validate` is not a
function of its input record alone. -/
theorem c3_purity_counterexample :
    validateInvoiceData rt0 envA recA ≠ validateInvoiceData rt0 envB recA := by
  intro h
  have hw := congrArg ValidationResult.warnings h
  rw [show (validateInvoiceData rt0 envA recA).warnings = allWarnings rt0 envA recA
        from rfl,
      show (validateInvoiceData rt0 envB recA).warnings = allWarnings rt0 envB recA
        from rfl,
      warnings_recA_envA, warnings_recA_envB] at hw
  exact List.cons_ne_nil _ _ hw

/-- C4: the aggregate confidence equals the weighted sum
identifier×0.20 + amounts×0.35 + items×0.30 + taxId×0.15 of the four field
scores rounded to the nearest integer, and always lies in [0, 100]. -/
theorem c4_aggregate_confidence (rt : JsRuntime) (env : JsEnv)
    (d : ExtractedInvoiceData) :
    (validateInvoiceData rt env d).confidenceScore =
      jsRound
        (((validateInvoiceData rt env d).fieldConfidence.invoiceNumber : ℚ) * 0.2 +
          ((validateInvoiceData rt env d).fieldConfidence.amounts : ℚ) * 0.35 +
          ((validateInvoiceData rt env d).fieldConfidence.items : ℚ) * 0.3 +
          ((validateInvoiceData rt env d).fieldConfidence.gstin : ℚ) * 0.15) ∧
      0 ≤ (validateInvoiceData rt env d).confidenceScore ∧
      (validateInvoiceData rt env d).confidenceScore ≤ 100 :=
  ⟨rfl, overallConfidence_bounds d⟩

/-- C9: a record with no line items gets the hard error `'No line items
found'`, an items field confidence of exactly 0, and is never auto-approved. -/
theorem c9_empty_items_forces_manual_review (rt : JsRuntime) (env : JsEnv)
    (d : ExtractedInvoiceData) (h : d.items = []) :
    VError.noLineItems ∈ (validateInvoiceData rt env d).errors ∧
    (validateInvoiceData rt env d).fieldConfidence.items = 0 ∧
    (validateInvoiceData rt env d).canAutoApprove = false := by
  refine ⟨?_, ?_, ?_⟩
  · show _ ∈ allErrors rt d
    simp [allErrors, itemsErrors, h]
  · show fcItems d = 0
    simp [fcItems, h]
  · show canAutoApproveOf rt d = false
    have hmem : VError.noLineItems ∈ allErrors rt d := by
      simp [allErrors, itemsErrors, h]
    have hlen : (allErrors rt d).length ≠ 0 := by
      intro hc
      rw [List.length_eq_zero] at hc
      rw [hc] at hmem
      exact absurd hmem (List.not_mem_nil _)
    simp [canAutoApproveOf, hlen]

/-- C9 witness: the empty-items record `recC`. -/
theorem c9_witness :
    VError.noLineItems ∈ (validateInvoiceData rt0 env0 recC).errors ∧
    (validateInvoiceData rt0 env0 recC).fieldConfidence.items = 0 ∧
    (validateInvoiceData rt0 env0 recC).canAutoApprove = false :=
  c9_empty_items_forces_manual_review rt0 env0 recC rfl
theorem foldl_learn_some (sid : String) (was : Bool) (now : ℤ)
    (xs : List ExtractedInvoiceData) (t0 : InvoiceTemplate) :
    xs.foldl (fun acc d => some (learnFromInvoice acc d sid was now)) (some t0) =
      some (xs.foldl (fun t d => learnFromInvoice (some t) d sid was now) t0) := by
  induction xs generalizing t0 with
  | nil => rfl
  | cons x xs ih => simp [List.foldl_cons, ih]

theorem learn_fold_mean (sid : String) (was : Bool) (now : ℤ)
    (xs : List ExtractedInvoiceData) :
    ∀ (t : InvoiceTemplate) (k : ℕ) (S C : ℚ),
      t.statistics.totalInvoicesProcessed = k → k ≠ 0 →
      t.patterns.avgTotalAmount = S / (k : ℚ) →
      t.patterns.avgItemCount = C / (k : ℚ) →
      ((xs.foldl (fun t d => learnFromInvoice (some t) d sid was now)
          t).statistics.totalInvoicesProcessed = k + xs.length ∧
       (xs.foldl (fun t d => learnFromInvoice (some t) d sid was now)
          t).patterns.avgTotalAmount =
         (S + (xs.map (fun d => d.totalAmount)).sum) / ((k : ℚ) + xs.length) ∧
       (xs.foldl (fun t d => learnFromInvoice (some t) d sid was now)
          t).patterns.avgItemCount =
         (C + (xs.map (fun d => (d.items.length : ℚ))).sum) / ((k : ℚ) + xs.length)) := by
  induction xs with
  | nil =>
    intro t k S C hk _ hS hC
    simpa [hk] using ⟨hS, hC⟩
  | cons x xs ih =>
    intro t k S C hk hk0 hS hC
    have hkQ : (k : ℚ) ≠ 0 := Nat.cast_ne_zero.mpr hk0
    have h1 : (learnFromInvoice (some t) x sid was now).statistics.totalInvoicesProcessed
        = k + 1 := by
      simp [learnFromInvoice, hk]
    have h2 : (learnFromInvoice (some t) x sid was now).patterns.avgTotalAmount =
        (S + x.totalAmount) / ((k : ℚ) + 1) := by
      show (t.patterns.avgTotalAmount * (t.statistics.totalInvoicesProcessed : ℚ) +
        x.totalAmount) / ((t.statistics.totalInvoicesProcessed : ℚ) + 1) = _
      rw [hk, hS, div_mul_cancel₀ S hkQ]
    have h3 : (learnFromInvoice (some t) x sid was now).patterns.avgItemCount =
        (C + (x.items.length : ℚ)) / ((k : ℚ) + 1) := by
      show (t.patterns.avgItemCount * (t.statistics.totalInvoicesProcessed : ℚ) +
        (x.items.length : ℚ)) / ((t.statistics.totalInvoicesProcessed : ℚ) + 1) = _
      rw [hk, hC, div_mul_cancel₀ C hkQ]
    have := ih (learnFromInvoice (some t) x sid was now) (k + 1)
      (S + x.totalAmount) (C + (x.items.length : ℚ)) h1 (Nat.succ_ne_zero k)
      (by rw [h2]; push_cast; ring_nf) (by rw [h3]; push_cast; ring_nf)
    refine ⟨?_, ?_, ?_⟩
    · rw [List.foldl_cons]
      rw [this.1]
      simp [List.length_cons]
      omega
    · rw [List.foldl_cons, this.2.1]
      simp only [List.map_cons, List.sum_cons, List.length_cons]
      rw [add_assoc S]
      congr 1
      push_cast
      ring
    · rw [List.foldl_cons, this.2.2]
      simp only [List.map_cons, List.sum_cons, List.length_cons]
      rw [add_assoc C]
      congr 1
      push_cast
      ring

/-- C5: for an existing Template with processed count n, `learn` updates each
moving average (item count and total amount) by the online formula
newAvg = (oldAvg*n + newValue)/(n+1) and increments n by exactly one, so
replaying records v1..vk sequentially from a fresh Template yields the true
arithmetic mean. -/
theorem c5_learn_online_mean (sid : String) (was : Bool) (now : ℤ)
    (records : List ExtractedInvoiceData) (t : InvoiceTemplate)
    (h : replayLearn sid was now records = some t) :
    (t.statistics.totalInvoicesProcessed = records.length ∧
     t.patterns.avgTotalAmount =
       (records.map (fun d => d.totalAmount)).sum / (records.length : ℚ) ∧
     t.patterns.avgItemCount =
       (records.map (fun d => (d.items.length : ℚ))).sum / (records.length : ℚ)) ∧
    (∀ (tm : InvoiceTemplate) (d : ExtractedInvoiceData),
      (learnFromInvoice (some tm) d sid was now).patterns.avgTotalAmount =
        (tm.patterns.avgTotalAmount * (tm.statistics.totalInvoicesProcessed : ℚ) +
          d.totalAmount) / ((tm.statistics.totalInvoicesProcessed : ℚ) + 1) ∧
      (learnFromInvoice (some tm) d sid was now).patterns.avgItemCount =
        (tm.patterns.avgItemCount * (tm.statistics.totalInvoicesProcessed : ℚ) +
          (d.items.length : ℚ)) / ((tm.statistics.totalInvoicesProcessed : ℚ) + 1) ∧
      (learnFromInvoice (some tm) d sid was now).statistics.totalInvoicesProcessed =
        tm.statistics.totalInvoicesProcessed + 1) := by
  refine ⟨?_, fun tm d => ⟨rfl, rfl, rfl⟩⟩
  cases records with
  | nil => simp [replayLearn] at h
  | cons x xs =>
    rw [replayLearn, List.foldl_cons, foldl_learn_some] at h
    have ht : t = xs.foldl (fun t d => learnFromInvoice (some t) d sid was now)
        (learnFromInvoice none x sid was now) := (Option.some_injective _ h).symm
    obtain ⟨ha, hb, hc⟩ := learn_fold_mean sid was now xs
      (learnFromInvoice none x sid was now) 1 x.totalAmount ((x.items.length : ℚ))
      rfl one_ne_zero (by norm_num [learnFromInvoice]) (by norm_num [learnFromInvoice])
    refine ⟨?_, ?_, ?_⟩
    · rw [ht, ha]; simp [List.length_cons]; omega
    · rw [ht, hb]
      simp only [List.map_cons, List.sum_cons, List.length_cons]
      congr 1
      push_cast
      ring
    · rw [ht, hc]
      simp only [List.map_cons, List.sum_cons, List.length_cons]
      congr 1
      push_cast
      ring

def getCount : List (String × ℕ) → String → ℕ
  | [], _ => 0
  | (k, c) :: rest, s => if s = k then c else getCount rest s

def keysOf (t : List (String × ℕ)) : List String := t.map Prod.fst

def mergedValues (existing newValues : List String) : List String :=
  existing ++ newValues.filter (fun v => v ≠ "")

theorem getCount_bumpFreq (t : List (String × ℕ)) (v s : String) :
    getCount (bumpFreq t v) s = getCount t s + (if s = v then 1 else 0) := by
  induction t with
  | nil => simp [bumpFreq, getCount]
  | cons p rest ih =>
    obtain ⟨k, c⟩ := p
    by_cases hkv : k = v
    · subst hkv
      by_cases hsk : s = k <;> simp [bumpFreq, getCount, hsk]
    · have hb : bumpFreq ((k, c) :: rest) v = (k, c) :: bumpFreq rest v := by
        simp [bumpFreq, hkv]
      by_cases hsk : s = k
      · have hsv : ¬ s = v := fun hc => hkv (hsk.symm.trans hc)
        simp [hb, getCount, hsk, hsv, hkv]
      · simp [hb, getCount, hsk, ih]

theorem getCount_foldl (l : List String) (t : List (String × ℕ)) (s : String) :
    getCount (l.foldl bumpFreq t) s = getCount t s + l.count s := by
  induction l generalizing t with
  | nil => simp
  | cons a l ih =>
    rw [List.foldl_cons, ih, getCount_bumpFreq, List.count_cons]
    by_cases h : s = a
    · subst h
      simp
      omega
    · have h1 : ¬ (a == s) = true := by
        simpa [beq_iff_eq] using fun hc : a = s => h hc.symm
      rw [if_neg h, if_neg h1]
      omega

theorem mem_keys_bumpFreq (t : List (String × ℕ)) (v k : String) :
    k ∈ keysOf (bumpFreq t v) ↔ k ∈ keysOf t ∨ k = v := by
  induction t with
  | nil => simp [bumpFreq, keysOf, eq_comm]
  | cons p rest ih =>
    obtain ⟨k', c⟩ := p
    by_cases h : k' = v
    · subst h
      have hb : bumpFreq ((k', c) :: rest) k' = (k', c + 1) :: rest := by
        simp [bumpFreq]
      rw [hb]
      simp only [keysOf, List.map_cons, List.mem_cons]
      tauto
    · have hb : bumpFreq ((k', c) :: rest) v = (k', c) :: bumpFreq rest v := by
        simp [bumpFreq, h]
      simp only [keysOf, List.map_cons, List.mem_cons] at ih ⊢
      rw [hb]
      simp only [List.map_cons, List.mem_cons, ih]
      tauto

theorem nodup_keys_bumpFreq (t : List (String × ℕ)) (v : String)
    (h : (keysOf t).Nodup) : (keysOf (bumpFreq t v)).Nodup := by
  induction t with
  | nil => simp [bumpFreq, keysOf]
  | cons p rest ih =>
    obtain ⟨k, c⟩ := p
    simp only [keysOf, List.map_cons, List.nodup_cons] at h
    by_cases hkv : k = v
    · subst hkv
      have hb : bumpFreq ((k, c) :: rest) k = (k, c + 1) :: rest := by
        simp [bumpFreq]
      rw [hb]
      simp only [keysOf, List.map_cons, List.nodup_cons]
      exact ⟨h.1, h.2⟩
    · have hb : bumpFreq ((k, c) :: rest) v = (k, c) :: bumpFreq rest v := by
        simp [bumpFreq, hkv]
      rw [hb]
      simp only [keysOf, List.map_cons, List.nodup_cons]
      refine ⟨?_, ih h.2⟩
      intro hc
      rcases (mem_keys_bumpFreq rest v k).mp hc with hm | rfl
      · exact h.1 hm
      · exact hkv rfl

theorem nodup_keys_foldl (l : List String) (t : List (String × ℕ))
    (h : (keysOf t).Nodup) : (keysOf (l.foldl bumpFreq t)).Nodup := by
  induction l generalizing t with
  | nil => exact h
  | cons a l ih => exact ih _ (nodup_keys_bumpFreq t a h)

theorem getCount_of_mem (t : List (String × ℕ)) (h : (keysOf t).Nodup)
    {k : String} {c : ℕ} (hm : (k, c) ∈ t) : getCount t k = c := by
  induction t with
  | nil => exact absurd hm (List.not_mem_nil _)
  | cons p rest ih =>
    obtain ⟨k', c'⟩ := p
    simp only [keysOf, List.map_cons, List.nodup_cons] at h
    rcases List.mem_cons.mp hm with heq | hm'
    · rw [Prod.mk.injEq] at heq
      obtain ⟨rfl, rfl⟩ := heq
      simp [getCount]
    · have hk : ¬ k = k' := by
        intro hc; subst hc
        exact h.1 (List.mem_map.mpr ⟨(k, c), hm', rfl⟩)
      simp only [getCount, if_neg hk]
      exact ih h.2 hm'

theorem mem_insertCountDesc {p x : String × ℕ} {l : List (String × ℕ)} :
    x ∈ insertCountDesc p l ↔ x = p ∨ x ∈ l := by
  induction l with
  | nil => simp [insertCountDesc]
  | cons q rest ih =>
    simp only [insertCountDesc]
    split_ifs with h
    · simp only [List.mem_cons, ih]
      tauto
    · simp only [List.mem_cons]
      try tauto

theorem pairwise_insertCountDesc (p : String × ℕ) (l : List (String × ℕ))
    (h : l.Pairwise (fun a b => b.2 ≤ a.2)) :
    (insertCountDesc p l).Pairwise (fun a b => b.2 ≤ a.2) := by
  induction l with
  | nil => simp [insertCountDesc]
  | cons q rest ih =>
    rw [List.pairwise_cons] at h
    simp only [insertCountDesc]
    split_ifs with hq
    · rw [List.pairwise_cons]
      refine ⟨?_, ih h.2⟩
      intro b hb
      rcases mem_insertCountDesc.mp hb with rfl | hb'
      · exact le_of_lt hq
      · exact h.1 b hb'
    · rw [List.pairwise_cons]
      refine ⟨?_, List.pairwise_cons.mpr ⟨h.1, h.2⟩⟩
      intro b hb
      rcases List.mem_cons.mp hb with rfl | hb'
      · exact not_lt.mp hq
      · exact le_trans (h.1 b hb') (not_lt.mp hq)

theorem sortCountDesc_pairwise (l : List (String × ℕ)) :
    (sortCountDesc l).Pairwise (fun a b => b.2 ≤ a.2) := by
  unfold sortCountDesc
  induction l with
  | nil => simp
  | cons q rest ih => exact pairwise_insertCountDesc q _ ih

theorem mem_sortCountDesc {x : String × ℕ} {l : List (String × ℕ)}
    (h : x ∈ sortCountDesc l) : x ∈ l := by
  unfold sortCountDesc at h
  induction l with
  | nil => simp at h
  | cons q rest ih =>
    rw [List.foldr_cons] at h
    rcases mem_insertCountDesc.mp h with rfl | h'
    · exact List.mem_cons_self _ _
    · exact List.mem_cons_of_mem _ (ih h')

theorem freqTable_count (e n : List String) (s : String) :
    getCount (freqTable e n) s = (mergedValues e n).count s := by
  unfold freqTable mergedValues
  rw [getCount_foldl]
  simp [getCount]

theorem freqTable_keys_nodup (e n : List String) :
    (keysOf (freqTable e n)).Nodup :=
  nodup_keys_foldl _ [] (by simp [keysOf])

theorem updateCommonValues_sorted (e n : List String) :
    (updateCommonValues e n 20).Pairwise
      (fun a b => (mergedValues e n).count b ≤ (mergedValues e n).count a) := by
  unfold updateCommonValues
  have h2 : (sortCountDesc (freqTable e n)).Pairwise
      (fun p q => (mergedValues e n).count q.1 ≤ (mergedValues e n).count p.1) := by
    refine (sortCountDesc_pairwise (freqTable e n)).imp_of_mem ?_
    intro a b ha hb hle
    have hca : getCount (freqTable e n) a.1 = a.2 :=
      getCount_of_mem _ (freqTable_keys_nodup e n) (mem_sortCountDesc ha)
    have hcb : getCount (freqTable e n) b.1 = b.2 :=
      getCount_of_mem _ (freqTable_keys_nodup e n) (mem_sortCountDesc hb)
    calc (mergedValues e n).count b.1 = getCount (freqTable e n) b.1 :=
          (freqTable_count e n b.1).symm
      _ = b.2 := hcb
      _ ≤ a.2 := hle
      _ = getCount (freqTable e n) a.1 := hca.symm
      _ = (mergedValues e n).count a.1 := freqTable_count e n a.1
  have h3 := h2.sublist (List.take_sublist 20 _)
  exact List.pairwise_map.mpr h3

theorem updateCommonValues_length (e n : List String) (m : ℕ) :
    (updateCommonValues e n m).length ≤ m := by
  simp [updateCommonValues]

theorem learn_lists_bounded (t? : Option InvoiceTemplate)
    (d : ExtractedInvoiceData) (sid : String) (was : Bool) (now : ℤ) :
    ((learnFromInvoice t? d sid was now).patterns.commonHSNCodes).length ≤ 20 ∧
    ((learnFromInvoice t? d sid was now).patterns.commonItemNames).length ≤ 20 := by
  cases t? with
  | none => simp [learnFromInvoice]
  | some t =>
    exact ⟨updateCommonValues_length _ _ _, updateCommonValues_length _ _ _⟩

theorem foldl_learn_bounded (sid : String) (was : Bool) (now : ℤ)
    (xs : List ExtractedInvoiceData) :
    ∀ t0 : InvoiceTemplate,
      (t0.patterns.commonHSNCodes.length ≤ 20 ∧
        t0.patterns.commonItemNames.length ≤ 20) →
      ((xs.foldl (fun t d => learnFromInvoice (some t) d sid was now)
          t0).patterns.commonHSNCodes.length ≤ 20 ∧
       (xs.foldl (fun t d => learnFromInvoice (some t) d sid was now)
          t0).patterns.commonItemNames.length ≤ 20) := by
  induction xs with
  | nil => exact fun t0 h => h
  | cons x xs ih =>
    intro t0 _
    exact ih _ (learn_lists_bounded (some t0) x sid was now)

/-- C6: after any number of `learn` calls the Template's most-frequent
classification-code and item-name lists contain at most 20 entries, and the
re-ranking operation that produces them returns a list sorted in descending
order of the merged observation frequencies. -/
theorem c6_frequency_lists_invariant (sid : String) (was : Bool) (now : ℤ)
    (records : List ExtractedInvoiceData) (t : InvoiceTemplate)
    (h : replayLearn sid was now records = some t) :
    (t.patterns.commonHSNCodes.length ≤ 20 ∧
     t.patterns.commonItemNames.length ≤ 20) ∧
    ∀ existing newValues : List String,
      (updateCommonValues existing newValues 20).length ≤ 20 ∧
      (updateCommonValues existing newValues 20).Pairwise
        (fun a b => (mergedValues existing newValues).count b ≤
          (mergedValues existing newValues).count a) := by
  refine ⟨?_, fun e n =>
    ⟨updateCommonValues_length e n 20, updateCommonValues_sorted e n⟩⟩
  cases records with
  | nil => simp [replayLearn] at h
  | cons x xs =>
    rw [replayLearn, List.foldl_cons, foldl_learn_some] at h
    have ht := (Option.some_injective _ h).symm
    rw [ht]
    exact foldl_learn_bounded sid was now xs _ (learn_lists_bounded none x sid was now)

theorem matchScore_bounds (b1 b2 b3 b4 b5 b6 : Bool) :
    35 ≤ 100 - (if b1 then (10:ℤ) else 0) - (if b2 then 5 else 0) -
      (if b3 then 15 else 0) - (if b4 then 10 else 0) - (if b5 then 10 else 0) -
      (if b6 then 15 else 0) ∧
    100 - (if b1 then (10:ℤ) else 0) - (if b2 then 5 else 0) -
      (if b3 then 15 else 0) - (if b4 then 10 else 0) - (if b5 then 10 else 0) -
      (if b6 then 15 else 0) ≤ 100 := by
  cases b1 <;> cases b2 <;> cases b3 <;> cases b4 <;> cases b5 <;> cases b6 <;>
    norm_num

theorem clamp_bounds {S : ℤ} (h35 : 35 ≤ S) :
    35 ≤ max 0 (min 100 S) ∧ max 0 (min 100 S) ≤ 100 :=
  ⟨le_max_of_le_right (le_min (by norm_num) h35),
   max_le (by norm_num) (min_le_left _ _)⟩

/-- C10: the confidence returned by `match` lies in [35, 100]: with no
Template it is exactly 50, and with a Template the six penalties
(10+5+15+10+10+15 = 65) from a start of 100 leave at least 35, so the lower
clamp at 0 is never reached. -/
theorem c10_match_confidence_bounds (rt : JsRuntime) (template? : Option InvoiceTemplate)
    (d : ExtractedInvoiceData) :
    35 ≤ (validateAgainstTemplate rt template? d).confidence ∧
    (validateAgainstTemplate rt template? d).confidence ≤ 100 ∧
    (validateAgainstTemplate rt none d).confidence = 50 := by
  refine ⟨?_, ?_, rfl⟩ <;> cases template? with
  | none => norm_num [validateAgainstTemplate]
  | some t =>
    first
    | exact (clamp_bounds (matchScore_bounds _ _ _ _ _ _).1).1
    | exact (clamp_bounds (matchScore_bounds _ _ _ _ _ _).1).2


theorem markPicked_id (picked : List String) (j : QueueJob) :
    (markPicked picked j).id = j.id := by
  unfold markPicked
  split <;> rfl

theorem markPicked_status (picked : List String) (j : QueueJob) :
    (markPicked picked j).status = .processing ∨ markPicked picked j = j := by
  unfold markPicked
  split
  · exact Or.inl rfl
  · exact Or.inr rfl

theorem processQueueSyncPart_newJob (s : QState) (nj : QueueJob)
    (hnjp : nj.status = .pending) :
    ∃ j, j ∈ (processQueueSyncPart { s with queue := s.queue ++ [nj] }).queue ∧
      j.id = nj.id ∧ (j.status = .pending ∨ j.status = .processing) := by
  unfold processQueueSyncPart
  have hguard : ((s.queue ++ [nj]).any (fun j => j.status == .pending) ||
      decide (0 < s.activeJobs)) = true := by
    simp [hnjp]
  rw [if_pos hguard]
  by_cases hpend : pendingSlice (s.queue ++ [nj]) s.activeJobs = []
  · rw [if_pos hpend]
    exact ⟨nj, by simp, rfl, Or.inl hnjp⟩
  · rw [if_neg hpend]
    refine ⟨markPicked ((pendingSlice (s.queue ++ [nj]) s.activeJobs).map
      (fun j => j.id)) nj, ?_, markPicked_id _ _, ?_⟩
    · exact List.mem_map_of_mem _ (by simp)
    · rcases markPicked_status ((pendingSlice (s.queue ++ [nj]) s.activeJobs).map
        (fun j => j.id)) nj with hs | hs
      · exact Or.inr hs
      · exact Or.inl (by rw [hs]; exact hnjp)

/-- C7 (amended): `addJob` returns the new Job's id, and a Job with that id is
in the queue when `addJob` returns, with status PENDING or PROCESSING; when
the queue loop was already running (`processing = true`) the Job is still
PENDING at that moment.  (When the queue is idle, `addJob` synchronously runs
the loop's first iteration up to its first suspension point, so the Job can
already be PROCESSING when `addJob` returns — see `c7_counterexample`.) -/
theorem c7_submit_amended (s : QState) (jid fp fn uid : String) (now : ℤ) :
    (addJob s jid fp fn uid now).2 = jid ∧
    (∃ j, j ∈ (addJob s jid fp fn uid now).1.queue ∧ j.id = jid ∧
      (j.status = .pending ∨ j.status = .processing)) ∧
    (s.processing = true →
      ∃ j, j ∈ (addJob s jid fp fn uid now).1.queue ∧ j.id = jid ∧
        j.status = .pending) := by
  unfold addJob
  by_cases hp : s.processing
  · rw [if_pos hp]
    exact ⟨rfl, ⟨newJob jid fp fn uid now, by simp, rfl, Or.inl rfl⟩,
      fun _ => ⟨newJob jid fp fn uid now, by simp, rfl, rfl⟩⟩
  · rw [if_neg hp]
    refine ⟨rfl, ?_, fun hc => absurd hc hp⟩
    exact processQueueSyncPart_newJob s (newJob jid fp fn uid now) rfl

/-- C8 (amended): `cancelJob` returns true exactly when a Job with the given
id exists with status PENDING; it then marks the Job FAILED with the reason
string 'Cancelled by user' (not the literal "cancelled"), stamps its
completion time and deletes its temp file; on a PROCESSING (or any
non-PENDING, or missing) Job it returns false and leaves the state untouched. -/
theorem c8_cancel_amended (s : QState) (jid : String) (now : ℤ) :
    ((cancelJob s jid now).2 = true ↔
      ∃ j, s.queue.find? (fun j => j.id == jid) = some j ∧ j.status = .pending) ∧
    (∀ j, s.queue.find? (fun j => j.id == jid) = some j → j.status ≠ .pending →
      (cancelJob s jid now).2 = false ∧ (cancelJob s jid now).1 = s) ∧
    (s.queue.find? (fun j => j.id == jid) = none →
      (cancelJob s jid now).2 = false ∧ (cancelJob s jid now).1 = s) ∧
    (∀ j, s.queue.find? (fun j => j.id == jid) = some j → j.status = .pending →
      (cancelJob s jid now).1.queue.find? (fun j' => j'.id == jid) =
        some { j with
               status := .failed
               error := some "Cancelled by user"
               completedAt := some now } ∧
      j.filePath ∈ (cancelJob s jid now).1.deletedFiles) := by
  unfold cancelJob
  cases hf : s.queue.find? (fun j => j.id == jid) with
  | none =>
    refine ⟨by simp, ?_, fun _ => ⟨rfl, rfl⟩, ?_⟩
    · intro j hj
      exact absurd hj (by simp)
    · intro j hj
      exact absurd hj (by simp)
  | some job =>
    dsimp only
    by_cases hjs : job.status = .pending
    · rw [if_pos hjs]
      refine ⟨by simp [hjs], ?_, by simp, ?_⟩
      · intro j hj hjp
        rw [Option.some.injEq] at hj
        subst hj
        exact absurd hjs hjp
      · intro j hj hjp
        rw [Option.some.injEq] at hj
        subst hj
        constructor
        · have hu : (fun j' => j'.id == jid) ∘ (fun x : QueueJob =>
              if x.id == jid then
                { x with
                  status := .failed
                  error := some "Cancelled by user"
                  completedAt := some now }
              else x) = fun x : QueueJob => x.id == jid := by
            funext x
            by_cases hx : (x.id == jid) = true
            · have hx' : x.id = jid := by simpa using hx
              simp [hx, hx']
            · have hx' : ¬ x.id = jid := by simpa using hx
              simp [hx, hx']
          rw [List.find?_map, hu, hf, Option.map_some']
          have hji := List.find?_some hf
          rw [if_pos hji]
        · simp
    · rw [if_neg hjs]
      refine ⟨by simp [hjs], fun j hj _ => ⟨rfl, rfl⟩, by simp, ?_⟩
      intro j hj hjp
      rw [Option.some.injEq] at hj
      subst hj
      exact absurd hjp hjs

/-! ## Concrete queue states and templates for witnesses and counterexamples -/

def tmplA : InvoiceTemplate := learnFromInvoice none recA "sup1" true 0

def tmplAB : InvoiceTemplate := learnFromInvoice (some tmplA) recB "sup1" true 0

/-- C5 witness: replaying the two concrete records `recA` and `recB` from a
fresh Template. -/
theorem c5_witness :
    (tmplAB.statistics.totalInvoicesProcessed = [recA, recB].length ∧
     tmplAB.patterns.avgTotalAmount =
       ([recA, recB].map (fun d => d.totalAmount)).sum / ([recA, recB].length : ℚ) ∧
     tmplAB.patterns.avgItemCount =
       ([recA, recB].map (fun d => (d.items.length : ℚ))).sum /
         ([recA, recB].length : ℚ)) ∧
    (∀ (tm : InvoiceTemplate) (d : ExtractedInvoiceData),
      (learnFromInvoice (some tm) d "sup1" true 0).patterns.avgTotalAmount =
        (tm.patterns.avgTotalAmount * (tm.statistics.totalInvoicesProcessed : ℚ) +
          d.totalAmount) / ((tm.statistics.totalInvoicesProcessed : ℚ) + 1) ∧
      (learnFromInvoice (some tm) d "sup1" true 0).patterns.avgItemCount =
        (tm.patterns.avgItemCount * (tm.statistics.totalInvoicesProcessed : ℚ) +
          (d.items.length : ℚ)) / ((tm.statistics.totalInvoicesProcessed : ℚ) + 1) ∧
      (learnFromInvoice (some tm) d "sup1" true 0).statistics.totalInvoicesProcessed =
        tm.statistics.totalInvoicesProcessed + 1) :=
  c5_learn_online_mean "sup1" true 0 [recA, recB] tmplAB rfl

/-- C6 witness: the length and sortedness invariants evaluated after learning
the two concrete records `recA` and `recB`. -/
theorem c6_witness :
    (tmplAB.patterns.commonHSNCodes.length ≤ 20 ∧
     tmplAB.patterns.commonItemNames.length ≤ 20) ∧
    ∀ existing newValues : List String,
      (updateCommonValues existing newValues 20).length ≤ 20 ∧
      (updateCommonValues existing newValues 20).Pairwise
        (fun a b => (mergedValues existing newValues).count b ≤
          (mergedValues existing newValues).count a) :=
  c6_frequency_lists_invariant "sup1" true 0 [recA, recB] tmplAB rfl

def qs0 : QState := { queue := [], processing := false, activeJobs := 0, deletedFiles := [] }

def jobP : QueueJob :=
  { id := "j1", filePath := "up/a.pdf", fileName := "a.pdf", userId := "u",
    status := .pending, progress := 0, result := none, error := none,
    createdAt := 0, completedAt := none }

def jobQ : QueueJob :=
  { id := "j2", filePath := "up/b.pdf", fileName := "b.pdf", userId := "u",
    status := .processing, progress := 20, result := none, error := none,
    createdAt := 0, completedAt := none }

def sP : QState := { queue := [jobP], processing := false, activeJobs := 0, deletedFiles := [] }

def sQ : QState := { queue := [jobQ], processing := true, activeJobs := 1, deletedFiles := [] }

def sR : QState := { queue := [jobP], processing := true, activeJobs := 1, deletedFiles := [] }

/-- C7 counterexample: submitting a file to an idle queue.  `addJob` returns
the new id, but at the moment it returns the Job's status is already
PROCESSING, not PENDING: the synchronous prefix of the queue loop (and of
`processJob`) runs on the caller's stack before `addJob` returns. -/
theorem c7_counterexample :
    (addJob qs0 "job_1" "up/f.pdf" "f.pdf" "u1" 0).2 = "job_1" ∧
    ((addJob qs0 "job_1" "up/f.pdf" "f.pdf" "u1" 0).1.queue.map
      (fun j => (j.id, j.status))) = [("job_1", JobStatus.processing)] :=
  ⟨rfl, rfl⟩

/-- C7 witness: the amended submit contract evaluated on the concrete busy
queue state `sR` (loop already running), where the new Job stays PENDING. -/
theorem c7_witness :
    (addJob sR "job_2" "up/g.pdf" "g.pdf" "u1" 0).2 = "job_2" ∧
    (∃ j, j ∈ (addJob sR "job_2" "up/g.pdf" "g.pdf" "u1" 0).1.queue ∧
      j.id = "job_2" ∧ (j.status = .pending ∨ j.status = .processing)) ∧
    (sR.processing = true →
      ∃ j, j ∈ (addJob sR "job_2" "up/g.pdf" "g.pdf" "u1" 0).1.queue ∧
        j.id = "job_2" ∧ j.status = .pending) :=
  c7_submit_amended sR "job_2" "up/g.pdf" "g.pdf" "u1" 0

/-- C8 counterexample: cancelling the concrete PENDING job succeeds, but the
recorded failure reason is the string 'Cancelled by user', not "cancelled". -/
theorem c8_counterexample :
    (cancelJob sP "j1" 5).2 = true ∧
    ((cancelJob sP "j1" 5).1.queue.map (fun j => j.error)) =
      [some "Cancelled by user"] ∧
    ("Cancelled by user" : String) ≠ "cancelled" :=
  ⟨rfl, rfl, by decide⟩

/-- C8 witness: the amended cancel contract evaluated on a concrete PENDING
job (cancel succeeds, reason and file deletion recorded) and a concrete
PROCESSING job (cancel refused, state untouched). -/
theorem c8_witness :
    (cancelJob sP "j1" 5).2 = true ∧
    (cancelJob sP "j1" 5).1.queue.find? (fun j' => j'.id == "j1") =
      some { jobP with
             status := .failed
             error := some "Cancelled by user"
             completedAt := some 5 } ∧
    jobP.filePath ∈ (cancelJob sP "j1" 5).1.deletedFiles ∧
    (cancelJob sQ "j2" 5).2 = false ∧
    (cancelJob sQ "j2" 5).1 = sQ := by
  have h1 := c8_cancel_amended sP "j1" 5
  have h2 := c8_cancel_amended sQ "j2" 5
  refine ⟨h1.1.mpr ⟨jobP, rfl, rfl⟩, (h1.2.2.2 jobP rfl rfl).1,
    (h1.2.2.2 jobP rfl rfl).2, ?_, ?_⟩
  · exact (h2.2.1 jobQ rfl (by decide)).1
  · exact (h2.2.1 jobQ rfl (by decide)).2
